import Mathlib

/-!
Shallow embedding of the AETHER telemetry dashboard (src/app.py) and proofs
of the specified decision-policy properties.

The dashboard reads three sensor values (temperature, vibration, fuel),
runs a pre-trained binary classifier over them, renders a status banner,
audits a historical dataset fetched from object storage, and generates a
PDF incident report.  The classifier artifact is opaque: it is modelled as
an abstract pair of functions (predict, predict_proba), and all theorems
are stated for every such artifact.  Floating point values are modelled by
rationals; the thresholds compared against (5.0, 120.0) and the arithmetic
involved (counts, percentages) are exact, so no rounding behaviour is lost.
-/

namespace Aether

/-- One row of canonical model input: the single-row frame built on lines
45-49 of app.py from the three slider values, with the canonical column names
Temperature, Vibration and Fuel. -/
structure InputRow where
  temperature : ℚ
  vibration : ℚ
  fuel : ℚ
deriving DecidableEq

/-- The opaque classifier artifact loaded by `load_model`:
`predict` returns a class label, `predict_proba` the probability of class 1. -/
structure Model where
  predict : InputRow → ℕ
  predictProba : InputRow → ℚ

/-- The operator-facing status of the manual-prediction banner. -/
inductive Status where
  | CRITICAL
  | NOMINAL
deriving DecidableEq

/-- What the manual-prediction block displays: a status and a confidence
percentage. -/
structure ManualDisplay where
  status : Status
  confidencePercent : ℚ
deriving DecidableEq

/-- Lines 60-72 of app.py: `if prediction == 1:` show the CRITICAL banner with
`probability*100`, `else` show the NOMINAL banner with `(1-probability)*100`. -/
def manualDisplay (prediction : ℕ) (probability : ℚ) : ManualDisplay :=
  if prediction = 1 then
    { status := Status.CRITICAL, confidencePercent := probability * 100 }
  else
    { status := Status.NOMINAL, confidencePercent := (1 - probability) * 100 }

/-- Lines 45-72 of app.py: build the single-row input frame from the three
slider values, call the model, and display the resulting banner. -/
def manualAssess (m : Model) (temp vib fuel : ℚ) : ManualDisplay :=
  manualDisplay (m.predict ⟨temp, vib, fuel⟩) (m.predictProba ⟨temp, vib, fuel⟩)

end Aether

namespace Aether

/-- A pandas DataFrame, reduced to what the dashboard inspects: a list of
column names and a rectangular grid of numeric cells (one inner list per
row, indexed by column position). -/
structure DataFrame where
  columns : List String
  cells : List (List ℚ)
deriving DecidableEq

/-- The empty frame, as returned by pd.DataFrame() on a failed fetch. -/
def DataFrame.emptyFrame : DataFrame := ⟨[], []⟩

/-- The pandas df.empty flag: true when the frame has no rows. -/
def DataFrame.isEmpty (df : DataFrame) : Bool := df.cells.isEmpty

/-- Lines 21-34 of app.py, `load_cloud_data`: attempt the S3 fetch; on any
exception display an error diagnostic and return the empty frame.  The
fetch itself is opaque and modelled by its outcome: either a frame or the
message of the exception raised. -/
def load_cloud_data (fetch : Except String DataFrame) : DataFrame × Option String :=
  match fetch with
  | Except.ok df => (df, none)
  | Except.error e => (DataFrame.emptyFrame, some ("Error connecting to Cloud: " ++ e))

/-- Outcome of one dashboard section: either its content is rendered, or it
is skipped and a warning is shown instead. -/
inductive SectionOutcome where
  | rendered
  | skippedWithWarning
deriving DecidableEq

/-- Lines 81-85 of app.py: the historical-data table is shown when
`not df_history.empty`, otherwise it is skipped with a no-data warning. -/
def historyTableSection (df : DataFrame) : SectionOutcome :=
  if df.isEmpty then SectionOutcome.skippedWithWarning else SectionOutcome.rendered

/-- Lines 93-115 of app.py: the trend chart is drawn when
`not df_history.empty`, otherwise it is skipped with a no-data warning. -/
def trendChartSection (df : DataFrame) : SectionOutcome :=
  if df.isEmpty then SectionOutcome.skippedWithWarning else SectionOutcome.rendered

end Aether

namespace Aether

/-- The source columns the audit selects (line 131 of app.py). -/
def requiredColumns : List String := ["Temperature_C", "Vibration_Hz", "Fuel_Level_%"]

/-- Column selection, pandas df[[cols]]: pandas raises KeyError when any requested
column is absent (modelled as `none`); otherwise it reindexes each row by the
positions of the requested columns. -/
def selectColumns (df : DataFrame) (cols : List String) : Option (List (List ℚ)) :=
  if cols.all (fun c => df.columns.contains c) then
    some (df.cells.map (fun row => cols.map (fun c => row.getD (df.columns.indexOf c) 0)))
  else
    none

/-- Lines 131-132 of app.py: select the three source columns and rename them
to the canonical schema (the rename changes only the header, not the data). -/
def auditData (df : DataFrame) : Option (List (List ℚ)) :=
  selectColumns df requiredColumns

/-- A streamlit status banner: `st.error` or `st.success` with its message. -/
inductive Banner where
  | error (msg : String)
  | success (msg : String)
deriving DecidableEq

/-- The elevated-risk audit banner (line 149 of app.py). -/
def elevatedBanner : Banner :=
  Banner.error ("Smacky Warning: High Risk detected in historical data! Investigation required.")

/-- The stable audit banner (line 151 of app.py). -/
def stableBanner : Banner :=
  Banner.success ("Smacky Report: Historical data is mostly Nominal. System is stable.")

/-- Lines 148-151 of app.py: `if risk_percentage > 5.0` show the elevated
banner, else the stable banner. -/
def auditRiskBanner (risk_percentage : ℚ) : Banner :=
  if risk_percentage > 5 then elevatedBanner else stableBanner

/-- The aggregate audit statistics (lines 138-140 of app.py). -/
structure AuditSummary where
  total : ℕ
  danger_count : ℕ
  safe_count : ℕ
  risk_percentage : ℚ
deriving DecidableEq

/-- Outcome of pressing the audit button (lines 123-154 of app.py):
either the no-data warning, an aborted run (pandas `KeyError` from the
column selection), or a summary with its risk banner. -/
inductive AuditOutcome where
  | noData
  | schemaMismatch
  | report (s : AuditSummary) (banner : Banner)
deriving DecidableEq

/-- Lines 123-151 of app.py: if the fetched frame is non-empty, select and
rename the model columns, predict every row, count dangers, and derive the
risk percentage and banner; an empty frame only warns.  `predictRow` is the
row-wise action of the opaque `model.predict`. -/
def runAudit (predictRow : List ℚ → ℕ) (df : DataFrame) : AuditOutcome :=
  if df.isEmpty then AuditOutcome.noData
  else
    match auditData df with
    | none => AuditOutcome.schemaMismatch
    | some rows =>
      let bulk_predictions := rows.map predictRow
      let danger_count := bulk_predictions.sum
      let safe_count := bulk_predictions.length - danger_count
      let risk_percentage := (danger_count : ℚ) / (bulk_predictions.length : ℚ) * 100
      AuditOutcome.report
        { total := bulk_predictions.length
          danger_count := danger_count
          safe_count := safe_count
          risk_percentage := risk_percentage }
        (auditRiskBanner risk_percentage)

end Aether

namespace Aether

/-- Lines 157-193 of app.py, `generate_report`: the text content of the PDF
incident report, one entry per `pdf.cell` text, in order.  The `confidence`
parameter is accepted (the caller passes one) but never rendered, exactly as
in the source. -/
def generate_report (temp vib fuel : ℚ) (prediction : ℕ) (confidence : ℚ)
    (date_time : String) : List String :=
  ["AETHER SYSTEM - INCIDENT REPORT",
   "Report Generated: " ++ date_time,
   "SENSOR READINGS:",
   "Engine Temperature: " ++ toString temp ++ " °C",
   "Vibration Freq: " ++ toString vib ++ " Hz",
   "Fuel Level: " ++ toString fuel ++ " %",
   "AI ANALYSIS:"] ++
  (if prediction = 1 then
    ["STATUS: CRITICAL FAILURE DETECTED",
     "ACTION: Initiate Emergency Shutdown Protocol."]
  else
    ["STATUS: SYSTEM NOMINAL",
     "ACTION: Continue Monitoring."])

/-- Line 199 of app.py: the report-generation button calls `generate_report`
with the current sliders, the label of the model, and `probability*100` — the raw
class-1 probability scaled, regardless of the predicted label. -/
def reportGenerationCall (m : Model) (temp vib fuel : ℚ) (date_time : String) : List String :=
  generate_report temp vib fuel (m.predict ⟨temp, vib, fuel⟩)
    (m.predictProba ⟨temp, vib, fuel⟩ * 100) date_time

/-- A streamlit slider declaration: label, lower bound, upper bound, default. -/
structure Slider where
  label : String
  minValue : ℚ
  maxValue : ℚ
  defaultValue : ℚ
deriving DecidableEq

/-- Line 40 of app.py: `st.sidebar.slider("Engine Temp (°C)", 80.0, 130.0, 100.0)`. -/
def tempSlider : Slider := ⟨"Engine Temp (°C)", 80, 130, 100⟩

/-- Line 41 of app.py: `st.sidebar.slider("Vibration (Hz)", 40.0, 70.0, 50.0)`. -/
def vibSlider : Slider := ⟨"Vibration (Hz)", 40, 70, 50⟩

/-- Line 42 of app.py: `st.sidebar.slider("Fuel (%)", 0.0, 100.0, 75.0)`. -/
def fuelSlider : Slider := ⟨"Fuel (%)", 0, 100, 75⟩

/-- A value is producible by a slider exactly when it lies between the
declared bounds of the slider. -/
def Slider.producible (s : Slider) (v : ℚ) : Prop :=
  s.minValue ≤ v ∧ v ≤ s.maxValue

instance (s : Slider) (v : ℚ) : Decidable (s.producible v) := by
  unfold Slider.producible
  infer_instance

end Aether

namespace Aether

/-- The trend label of the forecasting dashboard. -/
inductive Trend where
  | RISING
  | STABLE
deriving DecidableEq

/-- Modelled from the spec: the forecasting dashboard (the second of the two
near-duplicate single-page applications) is not present under src/; its trend
derivation is specified as `RISING if predicted_value > current_value else
STABLE`. -/
def trendLabel (predicted current : ℚ) : Trend :=
  if predicted > current then Trend.RISING else Trend.STABLE

/-- Modelled from the spec: the alert escalation of the forecasting dashboard,
`predicted_value > 120.0°C` triggers a CRITICAL alert, a second threshold
check independent of the RISING/STABLE label. -/
def criticalAlert (predicted : ℚ) : Bool :=
  predicted > 120

/-- The forecasting assessment: both the trend label and the escalation
outcome are evaluated and reportable. -/
structure ForecastAssessment where
  trend : Trend
  alert : Bool
deriving DecidableEq

/-- Modelled from the spec: the forecasting path evaluates the trend label and
the independent critical-alert threshold on the same predicted value. -/
def forecastAssess (predicted current : ℚ) : ForecastAssessment :=
  { trend := trendLabel predicted current, alert := criticalAlert predicted }

end Aether

namespace Aether

/-! Concrete artifacts used by witnesses. -/

/-- A concrete classifier that labels every input critical with class-1
probability 92/100 (the scenario values of the spec). -/
def criticalClassifier : Model := ⟨fun _ => 1, fun _ => 92/100⟩

/-- A concrete classifier that labels every input nominal with class-1
probability 3/10. -/
def nominalClassifier : Model := ⟨fun _ => 0, fun _ => 3/10⟩

/-- A concrete row-wise predictor: critical when the first field (the
temperature) is at least 130. -/
def auditPredictor (r : List ℚ) : ℕ := if 130 ≤ r.getD 0 0 then 1 else 0

/-- A concrete fetched frame with the source schema of the audit and four rows,
one of them critical under `auditPredictor`. -/
def sampleFrame : DataFrame :=
  ⟨["Temperature_C", "Vibration_Hz", "Fuel_Level_%"],
   [[135, 65, 10], [100, 50, 75], [100, 50, 75], [100, 50, 75]]⟩

/-- A concrete fetched frame with twenty rows, exactly one critical under
`auditPredictor`, so the audit risk lands exactly on the 5.0 boundary. -/
def boundaryFrame : DataFrame :=
  ⟨["Temperature_C", "Vibration_Hz", "Fuel_Level_%"],
   [135, 65, 10] :: List.replicate 19 [100, 50, 75]⟩

/-- A concrete fetched frame lacking the Fuel_Level_% source column. -/
def badFrame : DataFrame := ⟨["Temperature_C", "Vibration_Hz"], [[100, 50]]⟩

end Aether

namespace Aether

/-! Theorems for the claims about the classification dashboard. -/

/-- C1: for every snapshot fed to the single-reading assessment, the displayed
status is CRITICAL iff the label of the classifier equals 1 (otherwise NOMINAL), and
the displayed confidence is the probability of the displayed verdict: `p*100`
when the label is 1 and `(1-p)*100` otherwise — never the raw critical-class
probability when the label is nominal. -/
theorem manual_status_and_confidence (m : Model) (temp vib fuel : ℚ) :
    ((manualAssess m temp vib fuel).status = Status.CRITICAL ↔
      m.predict ⟨temp, vib, fuel⟩ = 1) ∧
    (m.predict ⟨temp, vib, fuel⟩ = 1 →
      (manualAssess m temp vib fuel).confidencePercent =
        m.predictProba ⟨temp, vib, fuel⟩ * 100) ∧
    (m.predict ⟨temp, vib, fuel⟩ ≠ 1 →
      (manualAssess m temp vib fuel).confidencePercent =
        (1 - m.predictProba ⟨temp, vib, fuel⟩) * 100) := by
  unfold manualAssess manualDisplay
  by_cases h : m.predict ⟨temp, vib, fuel⟩ = 1 <;> simp [h]

/-- C1 witness: the critical classifier at the scenario snapshot of the spec shows
confidence 92/100·100, and a nominal classifier shows the complement. -/
theorem manual_status_and_confidence_witness :
    (manualAssess criticalClassifier 135 65 10).confidencePercent = 92/100 * 100 ∧
    (manualAssess nominalClassifier 100 50 75).confidencePercent = (1 - 3/10) * 100 :=
  ⟨(manual_status_and_confidence criticalClassifier 135 65 10).2.1 rfl,
   (manual_status_and_confidence nominalClassifier 100 50 75).2.2 (by simp [nominalClassifier])⟩

/-- C4: the recommended-action text of the incident report is a deterministic
function of the label — label 1 yields the CRITICAL status line and the
emergency-shutdown action, any other label yields the NOMINAL status line and
the continue-monitoring action. -/
theorem report_action_deterministic (temp vib fuel confidence : ℚ) (prediction : ℕ)
    (date_time : String) :
    (prediction = 1 →
      "STATUS: CRITICAL FAILURE DETECTED" ∈
        generate_report temp vib fuel prediction confidence date_time ∧
      "ACTION: Initiate Emergency Shutdown Protocol." ∈
        generate_report temp vib fuel prediction confidence date_time) ∧
    (prediction ≠ 1 →
      "STATUS: SYSTEM NOMINAL" ∈
        generate_report temp vib fuel prediction confidence date_time ∧
      "ACTION: Continue Monitoring." ∈
        generate_report temp vib fuel prediction confidence date_time) := by
  unfold generate_report
  by_cases h : prediction = 1 <;> simp [h]

/-- C4 witness: at label 1 the report carries the shutdown action, at label 0
the monitoring action. -/
theorem report_action_deterministic_witness :
    "ACTION: Initiate Emergency Shutdown Protocol." ∈ generate_report 100 50 75 1 92 "t" ∧
    "ACTION: Continue Monitoring." ∈ generate_report 100 50 75 0 92 "t" :=
  ⟨((report_action_deterministic 100 50 75 92 1 "t").1 rfl).2,
   ((report_action_deterministic 100 50 75 92 0 "t").2 (by decide)).2⟩

/-- C9 (implicit): the report text is independent of the confidence argument —
two runs differing only in the confidence produce identical text — even though
the report-generation caller passes the raw class-1 probability times 100. -/
theorem report_ignores_confidence (m : Model) (temp vib fuel c1 c2 : ℚ)
    (prediction : ℕ) (date_time : String) :
    generate_report temp vib fuel prediction c1 date_time =
      generate_report temp vib fuel prediction c2 date_time ∧
    reportGenerationCall m temp vib fuel date_time =
      generate_report temp vib fuel (m.predict ⟨temp, vib, fuel⟩) c1 date_time :=
  ⟨rfl, rfl⟩

/-- C5: in the forecasting path a predicted next value strictly above 120.0°C
raises the CRITICAL alert regardless of the trend label; in particular a STABLE
trend with predicted value above 120.0 still alerts, and both the trend label
and the escalation outcome are evaluated and reportable. -/
theorem forecast_alert_escalation (predicted current : ℚ) :
    ((forecastAssess predicted current).alert = true ↔ predicted > 120) ∧
    (forecastAssess predicted current).trend = trendLabel predicted current ∧
    (∀ c2, (forecastAssess predicted c2).alert = (forecastAssess predicted current).alert) ∧
    (trendLabel predicted current = Trend.STABLE → predicted > 120 →
      (forecastAssess predicted current).alert = true) := by
  refine ⟨?_, rfl, fun c2 => rfl, ?_⟩
  · simp [forecastAssess, criticalAlert]
  · intro _ h
    simp [forecastAssess, criticalAlert, h]

/-- C5 witness: predicted 125.3 from current 130 is a STABLE trend that still
raises the CRITICAL alert. -/
theorem forecast_alert_escalation_witness :
    (forecastAssess (1253/10) 130).alert = true :=
  (forecast_alert_escalation (1253/10) 130).2.2.2 (by norm_num [trendLabel]) (by norm_num)

/-- C8 counterexample: the declared upper bound of the temperature slider is
130, not 150, so the stated bounds 80 and 150 do not match the control. -/
theorem temp_slider_bounds_counterexample :
    tempSlider.maxValue = 130 ∧ ¬(tempSlider.minValue = 80 ∧ tempSlider.maxValue = 150) := by
  norm_num [tempSlider]

/-- C8 (amended): the manual temperature control declares an instrument range
of 80–130°C: the declared bounds of the slider are 80 and 130 and every value it can
produce lies within [80, 130]. -/
theorem temp_slider_bounds (v : ℚ) (hv : tempSlider.producible v) :
    tempSlider.minValue = 80 ∧ tempSlider.maxValue = 130 ∧ 80 ≤ v ∧ v ≤ 130 := by
  unfold Slider.producible tempSlider at hv
  exact ⟨rfl, rfl, hv.1, hv.2⟩

/-- C8 witness: the default value 100 of the slider is producible and in range. -/
theorem temp_slider_bounds_witness :
    tempSlider.minValue = 80 ∧ tempSlider.maxValue = 130 ∧ (80:ℚ) ≤ 100 ∧ (100:ℚ) ≤ 130 :=
  temp_slider_bounds 100 (by norm_num [Slider.producible, tempSlider])

end Aether

namespace Aether

/-! Helper lemmas shared by the audit theorems. -/

/-- Inversion of a successful audit run: the frame was non-empty, the column
selection succeeded, and the summary and banner are the ones computed on
lines 135-151 of app.py. -/
theorem runAudit_report_spec {f : List ℚ → ℕ} {df : DataFrame} {s : AuditSummary}
    {b : Banner} (hrun : runAudit f df = AuditOutcome.report s b) :
    ∃ rows, df.isEmpty = false ∧ auditData df = some rows ∧
      s.total = (rows.map f).length ∧
      s.danger_count = (rows.map f).sum ∧
      s.safe_count = (rows.map f).length - (rows.map f).sum ∧
      s.risk_percentage = ((rows.map f).sum : ℚ) / ((rows.map f).length : ℚ) * 100 ∧
      b = auditRiskBanner s.risk_percentage := by
  unfold runAudit at hrun
  by_cases hemp : df.isEmpty
  · simp [hemp] at hrun
  · rw [if_neg (by simp [hemp])] at hrun
    cases had : auditData df with
    | none => rw [had] at hrun; cases hrun
    | some rows =>
      rw [had] at hrun
      simp only at hrun
      injection hrun with hs hb
      subst hs
      subst hb
      exact ⟨rows, by simpa using hemp, rfl, rfl, rfl, rfl, rfl, rfl⟩

/-- On a list whose entries are all 0 or 1, the sum counts the ones and is
bounded by the length. -/
theorem sum_eq_count_one {l : List ℕ} (h : ∀ x ∈ l, x = 0 ∨ x = 1) :
    l.sum = l.count 1 ∧ l.sum ≤ l.length := by
  induction l with
  | nil => simp
  | cons a t ih =>
    obtain ⟨h1, h2⟩ := ih (fun x hx => h x (List.mem_cons_of_mem a hx))
    rcases h a (List.mem_cons_self a t) with rfl | rfl <;>
      simp [List.count_cons, h1] <;> omega

/-- A successful column selection preserves the number of rows. -/
theorem auditData_length {df : DataFrame} {rows : List (List ℚ)}
    (h : auditData df = some rows) : rows.length = df.cells.length := by
  unfold auditData selectColumns at h
  by_cases hall : requiredColumns.all (fun c => df.columns.contains c)
  · rw [if_pos hall] at h
    injection h with h
    subst h
    simp
  · rw [if_neg hall] at h
    cases h

end Aether

namespace Aether

/-- C2: a completed batch audit reports the elevated banner exactly when its
risk percentage is strictly greater than 5.0, and the stable banner whenever
the risk percentage is at most 5.0 — in particular at exactly 5.0. -/
theorem audit_risk_flag (f : List ℚ → ℕ) (df : DataFrame) (s : AuditSummary)
    (b : Banner) (hrun : runAudit f df = AuditOutcome.report s b) :
    (b = elevatedBanner ↔ s.risk_percentage > 5) ∧
    (s.risk_percentage ≤ 5 → b = stableBanner) := by
  obtain ⟨rows, -, -, -, -, -, -, hb⟩ := runAudit_report_spec hrun
  subst hb
  unfold auditRiskBanner
  by_cases h : s.risk_percentage > 5
  · rw [if_pos h]
    exact ⟨⟨fun _ => h, fun _ => rfl⟩, fun hle => absurd h (not_lt.mpr hle)⟩
  · rw [if_neg h]
    refine ⟨⟨fun hsb => ?_, fun hgt => absurd hgt h⟩, fun _ => rfl⟩
    exact absurd hsb (by simp [stableBanner, elevatedBanner])

/-- C3: under the precondition that the classifier labels every row 0 or 1,
a completed batch audit satisfies `danger_count + safe_count = total` and
`risk_percentage = danger_count / total * 100`, with `danger_count` equal to
the number of rows the classifier labelled critical. -/
theorem audit_counts_invariant (f : List ℚ → ℕ) (df : DataFrame) (s : AuditSummary)
    (b : Banner) (hrun : runAudit f df = AuditOutcome.report s b)
    (hf : ∀ r, f r = 0 ∨ f r = 1) :
    s.danger_count + s.safe_count = s.total ∧
    s.risk_percentage = (s.danger_count : ℚ) / (s.total : ℚ) * 100 ∧
    ∀ rows, auditData df = some rows →
      s.danger_count = (rows.map f).count 1 := by
  obtain ⟨rows, hemp, had, ht, hd, hsafe, hrisk, -⟩ := runAudit_report_spec hrun
  have hall : ∀ x ∈ rows.map f, x = 0 ∨ x = 1 := by
    intro x hx
    obtain ⟨r, -, rfl⟩ := List.mem_map.mp hx
    exact hf r
  obtain ⟨hcount, hle⟩ := sum_eq_count_one hall
  refine ⟨by rw [hd, hsafe, ht]; omega, by rw [hrisk, hd, ht], ?_⟩
  intro rows2 had2
  rw [had] at had2
  injection had2 with had2
  subst had2
  rw [hd, hcount]

/-- C10 (implicit): the risk division of the audit is well-defined — a completed
audit run has a strictly positive total, so the divisor `len(bulk_predictions)`
is never zero. -/
theorem audit_division_guard (f : List ℚ → ℕ) (df : DataFrame) (s : AuditSummary)
    (b : Banner) (hrun : runAudit f df = AuditOutcome.report s b) :
    0 < s.total ∧ ((s.total : ℚ) ≠ 0) := by
  obtain ⟨rows, hemp, had, ht, -, -, -, -⟩ := runAudit_report_spec hrun
  have hcells : df.cells ≠ [] := by
    simpa [DataFrame.isEmpty, List.isEmpty_iff] using hemp
  have hpos : 0 < s.total := by
    rw [ht, List.length_map, auditData_length had]
    exact List.length_pos.mpr hcells
  exact ⟨hpos, by exact_mod_cast Nat.pos_iff_ne_zero.mp hpos⟩

/-- C6: when any of the required source columns (Temperature_C, Vibration_Hz,
Fuel_Level_%) is missing from the fetched frame, the column selection of the audit
fails (no default is substituted) and no audit report is ever produced. -/
theorem audit_schema_mismatch (df : DataFrame) (c : String)
    (hreq : c ∈ requiredColumns) (hmiss : c ∉ df.columns) :
    auditData df = none ∧ ∀ f s b, runAudit f df ≠ AuditOutcome.report s b := by
  have hnone : auditData df = none := by
    unfold auditData selectColumns
    rw [if_neg]
    intro hall
    rw [List.all_eq_true] at hall
    exact hmiss (List.mem_of_elem_eq_true (hall c hreq))
  refine ⟨hnone, fun f s b hrun => ?_⟩
  unfold runAudit at hrun
  by_cases hemp : df.isEmpty
  · rw [if_pos (by simpa using hemp)] at hrun
    cases hrun
  · rw [if_neg (by simpa using hemp), hnone] at hrun
    cases hrun

/-- C7: a failed storage fetch degrades to the empty frame plus a user-visible
diagnostic, and every downstream consumer treats the empty frame as a
first-class outcome: the table and chart sections are skipped with a warning
and the audit reports no data, with no exception propagating. -/
theorem cloud_fetch_degrades (e : String) :
    ((load_cloud_data (Except.error e)).1).isEmpty = true ∧
    (load_cloud_data (Except.error e)).2 = some ("Error connecting to Cloud: " ++ e) ∧
    historyTableSection (load_cloud_data (Except.error e)).1 =
      SectionOutcome.skippedWithWarning ∧
    trendChartSection (load_cloud_data (Except.error e)).1 =
      SectionOutcome.skippedWithWarning ∧
    ∀ f, runAudit f (load_cloud_data (Except.error e)).1 = AuditOutcome.noData :=
  ⟨rfl, rfl, rfl, rfl, fun _ => rfl⟩

end Aether

namespace Aether

/-! Concrete audit runs used by the witnesses. -/

/-- The predictor auditPredictor only ever emits the labels 0 and 1. -/
theorem auditPredictor_binary (r : List ℚ) : auditPredictor r = 0 ∨ auditPredictor r = 1 := by
  unfold auditPredictor
  split
  · exact Or.inr rfl
  · exact Or.inl rfl

/-- Evaluating the audit on the four-row sample frame. -/
theorem sampleFrame_run :
    runAudit auditPredictor sampleFrame =
      AuditOutcome.report ⟨4, 1, 3, 25⟩ elevatedBanner := by
  norm_num [runAudit, auditData, selectColumns, requiredColumns, sampleFrame,
    auditPredictor, DataFrame.isEmpty, auditRiskBanner, List.indexOf, List.findIdx,
    List.findIdx.go]

/-- Evaluating the audit on the twenty-row boundary frame: risk exactly 5.0,
stable banner. -/
theorem boundaryFrame_run :
    runAudit auditPredictor boundaryFrame =
      AuditOutcome.report ⟨20, 1, 19, 5⟩ stableBanner := by
  norm_num [runAudit, auditData, selectColumns, requiredColumns, boundaryFrame,
    auditPredictor, DataFrame.isEmpty, auditRiskBanner, List.indexOf, List.findIdx,
    List.findIdx.go, List.map_replicate, List.sum_replicate]

end Aether

namespace Aether

/-- C2 witness: the audit of the boundary frame lands exactly on risk 5.0 and the
theorem instantiates to the stable banner there. -/
theorem audit_risk_flag_witness :
    (stableBanner = elevatedBanner ↔ (5:ℚ) > 5) ∧ stableBanner = stableBanner :=
  ⟨(audit_risk_flag auditPredictor boundaryFrame ⟨20, 1, 19, 5⟩ stableBanner
      boundaryFrame_run).1,
   (audit_risk_flag auditPredictor boundaryFrame ⟨20, 1, 19, 5⟩ stableBanner
      boundaryFrame_run).2 (by norm_num)⟩

/-- C3 witness: the audit of the sample frame satisfies the count and percentage
invariants at concrete values. -/
theorem audit_counts_invariant_witness :
    (1 + 3 = 4) ∧ ((25:ℚ) = ((1:ℕ) : ℚ) / ((4:ℕ) : ℚ) * 100) ∧
    (∀ rows, auditData sampleFrame = some rows →
      1 = (rows.map auditPredictor).count 1) :=
  audit_counts_invariant auditPredictor sampleFrame ⟨4, 1, 3, 25⟩ elevatedBanner
    sampleFrame_run auditPredictor_binary

/-- C10 witness: the audit of the sample frame has a strictly positive total. -/
theorem audit_division_guard_witness :
    0 < 4 ∧ (((4:ℕ) : ℚ) ≠ 0) :=
  audit_division_guard auditPredictor sampleFrame ⟨4, 1, 3, 25⟩ elevatedBanner
    sampleFrame_run

/-- C6 witness: a frame missing Fuel_Level_% makes the column selection fail
and no audit report is produced. -/
theorem audit_schema_mismatch_witness :
    auditData badFrame = none ∧ ∀ f s b, runAudit f badFrame ≠ AuditOutcome.report s b :=
  audit_schema_mismatch badFrame ("Fuel_Level_%") (by simp [requiredColumns])
    (by simp [badFrame])

end Aether
